import Mathlib

/-!
Shallow embedding of the traffic-stuck detection and point-award subsystem of
the Traffic-Rewards repository, taken from the background task defined in
src/app/(tabs)/traffic.js (the TaskManager.defineTask callback for
LOCATION_TRACKING_TASK, lines 95-261), together with the helper
ensureUserPointsField (lines 78-92).  The repository also holds two
near-duplicate revisions of this screen, src/unnamed/part_004 and the
traffic screen of src/unnamed/part_005, which throttle the oracle calls;
their traffic block is embedded separately further below.

Modelling conventions:
  * Coordinates, durations and ratios are rationals; epoch-millisecond times
    are integers.  The haversine distance getDistanceFromLatLonInMeters is a
    floating-point trigonometric computation; it is treated as an opaque
    numeric parameter dist (same argument order as the source: lat1 lon1
    lat2 lon2), and every theorem quantifies over it.  The projected
    destination getDestinationFromHeading only feeds the HTTP request URL,
    whose response is supplied by the environment, so it does not appear.
  * AsyncStorage is the SessionState record (one field per key used by the
    task); Firestore's user document is the RemoteStore record.  Stored
    strings parsed with JSON.parse / parseInt are modelled as typed values,
    since only this subsystem writes those keys.
  * The two fetch calls and their JSON parsing are supplied by a TaskEnv
    environment: the traffic call either throws or yields the optional
    rows[0].elements[0] payload, the roads call either throws or yields the
    optional first snapped point.  Both fetches sit in one try block, so a
    roads failure also forces trafficStatus to the Error value.  In JS, a
    missing duration_in_traffic makes the ratio NaN, and NaN compares false
    against both thresholds, yielding the free-flow classification; the
    Option-valued ratio below reproduces this.
  * The getDoc/updateDoc pair inside the award try block is controlled by
    the grantRemoteOk environment flag: when false the block throws (network
    or store failure) and the catch swallows it, leaving every store and
    session field untouched.  ensureUserPointsField is assumed to complete
    (a failure there rejects the whole task invocation before any write).
  * The remote writes issued during an invocation are recorded in order in a
    trace, and the number of external HTTP requests attempted is counted, so
    that claims about which operations occur can be stated.
-/

namespace TrafficRewards

/-- A latitude/longitude pair (decimal degrees). -/
structure Coord where
  latitude : ℚ
  longitude : ℚ
deriving DecidableEq, Repr

/-- The reference point persisted under the lastKnownLocation key:
latitude, longitude and the epoch-millis instant it was recorded. -/
structure RefPoint where
  latitude : ℚ
  longitude : ℚ
  timestamp : ℤ
deriving DecidableEq, Repr

/-- A location fix delivered to the background task (locations[0]): its
coordinates, optional heading, and the fix's own timestamp.  The task body
never reads the timestamp field; it is carried so that claims about stale
fixes can be stated. -/
structure LocationFix where
  latitude : ℚ
  longitude : ℚ
  heading : Option ℚ
  timestamp : ℤ
deriving DecidableEq, Repr

/-- The AsyncStorage keys used by the background task, as one record.
A field is none when the key is absent. -/
structure SessionState where
  lastKnownLocation : Option RefPoint
  backgroundTrafficStatus : Option String
  backgroundIsOnRoad : Option Bool
  backgroundIsStuck : Option Bool
  backgroundSnappedLocation : Option Coord
  lastPointTime : Option ℤ
deriving DecidableEq, Repr

/-- An entry appended to pointHistory by the award write:
{ time: new Date().toLocaleString(), reason }.  The source stores no
amount field in the entry. -/
structure HistoryEntry where
  time : String
  reason : String
deriving DecidableEq, Repr

/-- The Firestore user document fields touched by this subsystem.  points is
none when the field is missing from the document. -/
structure UserDoc where
  points : Option ℤ
  pointHistory : List HistoryEntry
  lastPointTime : Option ℤ
deriving DecidableEq, Repr

/-- The remote store as seen through doc(db, 'users', uid): the user
document, or none when it has not been created. -/
structure RemoteStore where
  userDoc : Option UserDoc
deriving DecidableEq, Repr

/-- One remote write issued by the task, recorded in the invocation trace.
grantUpdate is the award write actually issued by traffic.js line 249: a
plain field update setting points to the locally computed total newPoints,
an atomic arrayUnion append of the history entry, and a field update of
lastPointTime.  grantIncrement is the atomic increment form of the award
write (the store's increment sentinel, imported by other files of this
repository but never by this task); it is never produced and exists so that
the claim that only atomic increments mutate points can be stated. -/
inductive RemoteWrite where
  | initPointsZero : RemoteWrite
  | createUserDoc : RemoteWrite
  | grantUpdate (newPoints : ℤ) (entry : HistoryEntry) (lastPointTime : ℤ) : RemoteWrite
  | grantIncrement (delta : ℤ) (entry : HistoryEntry) (lastPointTime : ℤ) : RemoteWrite
deriving DecidableEq, Repr

/-- Whether a trace entry is an award write (of either form). -/
def RemoteWrite.isGrant : RemoteWrite → Bool
  | .grantUpdate _ _ _ => true
  | .grantIncrement _ _ _ => true
  | _ => false

/-- Whether a trace entry writes points as a locally computed total
(the read-modify-write form). -/
def RemoteWrite.isPlainTotalWrite : RemoteWrite → Bool
  | .grantUpdate _ _ _ => true
  | _ => false

/-- Whether a trace entry mutates points via the store's atomic increment. -/
def RemoteWrite.isAtomicIncrement : RemoteWrite → Bool
  | .grantIncrement _ _ _ => true
  | _ => false

/-- The rows[0].elements[0] payload of the distance-matrix response:
optional duration_in_traffic.value and duration.value. -/
structure TrafficElement where
  durationInTraffic : Option ℚ
  normalDuration : Option ℚ
deriving DecidableEq, Repr

/-- Outcome of the traffic fetch: the request/parse throws, or completes
with the optional rows[0].elements[0] payload. -/
inductive TrafficApiResult where
  | fail : TrafficApiResult
  | ok (element : Option TrafficElement) : TrafficApiResult
deriving DecidableEq, Repr

/-- Outcome of the roads fetch: the request/parse throws, or completes with
the optional first snapped point. -/
inductive RoadsApiResult where
  | fail : RoadsApiResult
  | ok (snapped : Option Coord) : RoadsApiResult
deriving DecidableEq, Repr

/-- The per-invocation environment: the two oracle responses, whether the
getDoc/updateDoc pair of the award block succeeds, and the string produced
by new Date().toLocaleString() at award time. -/
structure TaskEnv where
  traffic : TrafficApiResult
  roads : RoadsApiResult
  grantRemoteOk : Bool
  nowLocaleString : String
deriving DecidableEq, Repr

/-- The arguments of one background-task invocation: the error flag and data
payload passed by TaskManager, auth.currentUser (none when signed out), and
Date.now() sampled on entry. -/
structure TaskInput where
  error : Bool
  data : Option LocationFix
  user : Option String
  now : ℤ
deriving DecidableEq, Repr

/-- The observable outcome of one invocation: final session state, final
remote store, the ordered trace of remote writes, and the number of external
HTTP requests attempted. -/
structure TaskOutcome where
  session : SessionState
  remote : RemoteStore
  writes : List RemoteWrite
  httpCalls : ℕ
deriving DecidableEq, Repr

-- Constants from traffic.js lines 27-36.  The two ratio thresholds keep
-- their source values 1.5 and 1.10 as exact rationals.
def STUCK_DISTANCE_THRESHOLD_METERS : ℚ := 30
def STUCK_TIME_THRESHOLD_MS : ℤ := 1000 * 60 * 1
def COOLDOWN_INTERVAL_MS : ℤ := 1000 * 60 * 5
def HEAVY_TRAFFIC_THRESHOLD : ℚ := 3 / 2
def MODERATE_TRAFFIC_THRESHOLD : ℚ := 11 / 10
def ON_ROAD_THRESHOLD_METERS : ℚ := 10

def heavyStatus : String := "Heavy Traffic (Red Zone)"
def moderateStatus : String := "Moderate Traffic (Yellow Zone)"
def freeFlowStatus : String := "Free Flow (Green Zone)"
def errorStatus : String := "Error"
def unknownStatus : String := "Unknown"

/-- ensureUserPointsField (traffic.js lines 78-92): if the user document
exists without a points field, set points to 0; if it does not exist, create
it with points 0 and an empty history.  Returns the updated store and the
writes issued. -/
def ensureUserPointsFieldM (r : RemoteStore) : RemoteStore × List RemoteWrite :=
  match r.userDoc with
  | some d =>
      if d.points = none then
        (⟨some { d with points := some 0 }⟩, [RemoteWrite.initPointsZero])
      else (r, [])
  | none =>
      (⟨some { points := some 0, pointHistory := [], lastPointTime := none }⟩,
       [RemoteWrite.createUserDoc])

/-- The stuck-detection section (traffic.js lines 119-162).  Given the
stored reference (lastKnownLocation), the delivered fix and Date.now(),
returns the new reference and isStuckInBackground.  The source branches:
stuck when distance below the threshold and enough time elapsed; reset the
reference (with timestamp now) when the distance reaches the threshold;
otherwise keep the reference and keep waiting.  With no stored reference the
fix is installed as the initial reference. -/
def stuckStep (dist : ℚ → ℚ → ℚ → ℚ → ℚ) (lastKnown : Option RefPoint)
    (latest : LocationFix) (now : ℤ) : Option RefPoint × Bool :=
  match lastKnown with
  | some ref =>
      let distance := dist ref.latitude ref.longitude latest.latitude latest.longitude
      let timeElapsed := now - ref.timestamp
      if distance < STUCK_DISTANCE_THRESHOLD_METERS ∧ timeElapsed ≥ STUCK_TIME_THRESHOLD_MS then
        (some ref, true)
      else if distance ≥ STUCK_DISTANCE_THRESHOLD_METERS then
        (some ⟨latest.latitude, latest.longitude, now⟩, false)
      else (some ref, false)
  | none => (some ⟨latest.latitude, latest.longitude, now⟩, false)

/-- Classification of the distance-matrix payload (traffic.js lines
178-189), starting from the Unknown value.  When the nested payload is
absent the status stays Unknown.  A falsy or non-positive duration.value
forces ratio 1; a present positive duration.value with a missing
duration_in_traffic.value gives a NaN ratio in JS, which fails both
threshold comparisons and falls through to free flow (ratio none below). -/
def classifyTraffic (element : Option TrafficElement) : String :=
  match element with
  | none => unknownStatus
  | some e =>
      let ratio : Option ℚ :=
        match e.normalDuration with
        | some n =>
            if n > 0 then
              match e.durationInTraffic with
              | some d => some (d / n)
              | none => none
            else some 1
        | none => some 1
      match ratio with
      | some r =>
          if r > HEAVY_TRAFFIC_THRESHOLD then heavyStatus
          else if r > MODERATE_TRAFFIC_THRESHOLD then moderateStatus
          else freeFlowStatus
      | none => freeFlowStatus

/-- Result of the traffic/road oracle section. -/
structure OracleOutcome where
  status : String
  onRoad : Bool
  snapped : Option Coord
  calls : ℕ
deriving DecidableEq, Repr

/-- The traffic/road oracle section (traffic.js lines 164-205).  Both
fetches share one try block: a traffic failure skips the roads call and a
roads failure discards the computed status; either failure lands in the
catch, which sets status Error and onRoad false (snappedLocation stays
null).  On success, onRoad holds when the distance from the raw fix to the
snapped point is below the on-road threshold. -/
def oracleStep (dist : ℚ → ℚ → ℚ → ℚ → ℚ) (env : TaskEnv)
    (latest : LocationFix) : OracleOutcome :=
  match env.traffic with
  | .fail => ⟨errorStatus, false, none, 1⟩
  | .ok element =>
      let trafficStatus := classifyTraffic element
      match env.roads with
      | .fail => ⟨errorStatus, false, none, 2⟩
      | .ok snapped? =>
          match snapped? with
          | some snapped =>
              let distanceToRoad :=
                dist latest.latitude latest.longitude snapped.latitude snapped.longitude
              ⟨trafficStatus, decide (distanceToRoad < ON_ROAD_THRESHOLD_METERS),
               some snapped, 2⟩
          | none => ⟨trafficStatus, false, none, 2⟩

/-- Firestore arrayUnion semantics: append the entry unless an equal element
is already present. -/
def arrayUnionAppend (h : List HistoryEntry) (e : HistoryEntry) : List HistoryEntry :=
  if e ∈ h then h else h ++ [e]

/-- The cache writes of traffic.js lines 207-214 applied to the session
(backgroundTrafficStatus, backgroundIsOnRoad, backgroundIsStuck set;
backgroundSnappedLocation set on a snap and removed otherwise), together
with the reference computed by the stuck section. -/
def cacheWrites (s : SessionState) (newRef : Option RefPoint) (status : String)
    (onRoad stuck : Bool) (snapped : Option Coord) : SessionState :=
  { s with
      lastKnownLocation := newRef
      backgroundTrafficStatus := some status
      backgroundIsOnRoad := some onRoad
      backgroundIsStuck := some stuck
      backgroundSnappedLocation := snapped }

/-- The point-awarding section (traffic.js lines 217-258).  lastPointTime is
read from the session (0 when absent); the cooldown is ready when now minus
that value reaches the cooldown interval.  When stuck, ready and on road
with a red or yellow status, the award block re-reads the document, computes
newPoints as the stored points (0 when absent) plus the award, and issues one
update setting points to newPoints, arrayUnion-appending the history entry
and setting lastPointTime to now; on success the session lastPointTime key is
set to now.  A throw anywhere in the block (grantRemoteOk false, or a missing
document making updateDoc reject) is caught and leaves everything unchanged. -/
def pointStep (env : TaskEnv) (now : ℤ) (s : SessionState) (r : RemoteStore)
    (ws : List RemoteWrite) (calls : ℕ) (trafficStatus : String)
    (isOnRoad isStuck : Bool) : TaskOutcome :=
  let lastPointTime : ℤ := s.lastPointTime.getD 0
  let cooldownReady : Bool := decide (now - lastPointTime ≥ COOLDOWN_INTERVAL_MS)
  let inRedZone : Bool := decide (trafficStatus = heavyStatus)
  let inYellowZone : Bool := decide (trafficStatus = moderateStatus)
  if isStuck && cooldownReady && isOnRoad then
    let pointsToAdd : ℤ := if inRedZone then 10 else if inYellowZone then 5 else 0
    let reason : String :=
      if inRedZone then "Stuck in heavy traffic on road (Background)"
      else if inYellowZone then "Stuck in moderate traffic on road (Background)"
      else ""
    if pointsToAdd > 0 then
      if env.grantRemoteOk then
        match r.userDoc with
        | some d =>
            let latestPoints : ℤ := d.points.getD 0
            let newPoints := latestPoints + pointsToAdd
            let entry : HistoryEntry := ⟨env.nowLocaleString, reason⟩
            let d2 : UserDoc :=
              { points := some newPoints
                pointHistory := arrayUnionAppend d.pointHistory entry
                lastPointTime := some now }
            ⟨{ s with lastPointTime := some now }, ⟨some d2⟩,
             ws ++ [RemoteWrite.grantUpdate newPoints entry now], calls⟩
        | none => ⟨s, r, ws, calls⟩
      else ⟨s, r, ws, calls⟩
    else ⟨s, r, ws, calls⟩
  else ⟨s, r, ws, calls⟩

/-- The body of the task once a fix and a signed-in user are present
(traffic.js lines 115-258): ensure the points field, run stuck detection,
query the oracles, persist the caches, and run the award section. -/
def runCore (dist : ℚ → ℚ → ℚ → ℚ → ℚ) (latest : LocationFix) (env : TaskEnv)
    (now : ℤ) (s : SessionState) (r : RemoteStore) : TaskOutcome :=
  let er := ensureUserPointsFieldM r
  let sd := stuckStep dist s.lastKnownLocation latest now
  let od := oracleStep dist env latest
  pointStep env now (cacheWrites s sd.1 od.status od.onRoad sd.2 od.snapped)
    er.1 er.2 od.calls od.status od.onRoad sd.2

/-- The full background-task callback (traffic.js lines 95-261): an error
invocation returns at once; with no data payload nothing runs; with no
signed-in user the task returns before any write; otherwise the core runs. -/
def runTask (dist : ℚ → ℚ → ℚ → ℚ → ℚ) (inp : TaskInput) (env : TaskEnv)
    (s : SessionState) (r : RemoteStore) : TaskOutcome :=
  if inp.error then ⟨s, r, [], 0⟩
  else
    match inp.data with
    | none => ⟨s, r, [], 0⟩
    | some latest =>
        match inp.user with
        | none => ⟨s, r, [], 0⟩
        | some _ => runCore dist latest env inp.now s r

/-- The award-reason string of the heavy branch (traffic.js line 234). -/
def heavyReason : String := "Stuck in heavy traffic on road (Background)"

/-- The award-reason string of the moderate branch (traffic.js line 237). -/
def moderateReason : String := "Stuck in moderate traffic on road (Background)"

/-- The points value the award block reads back with getDoc: the stored
points field, or 0 when the field or the document is absent. -/
def docPoints (r : RemoteStore) : ℤ :=
  match r.userDoc with
  | some d => d.points.getD 0
  | none => 0

/-- The points value visible to the award block after ensureUserPointsField
has run. -/
def pointsAfterEnsure (r : RemoteStore) : ℤ :=
  docPoints (ensureUserPointsFieldM r).1

-- Concrete example inputs used by witnesses and counterexamples.  The
-- opaque haversine parameter is instantiated with constant functions.

/-- Example distance function reporting no movement. -/
def dist0 : ℚ → ℚ → ℚ → ℚ → ℚ := fun _ _ _ _ => 0

/-- Example fix at the origin. -/
def fixEx : LocationFix := ⟨0, 0, none, 70000⟩

/-- Example environment: traffic ratio 2/1 (heavy), a snap at the origin,
and a working store. -/
def envHeavyEx : TaskEnv :=
  ⟨TrafficApiResult.ok (some ⟨some 2, some 1⟩),
   RoadsApiResult.ok (some ⟨0, 0⟩), true, "T"⟩

/-- Example session: a reference at the origin recorded at time 0 and no
other keys. -/
def sessEx : SessionState := ⟨some ⟨0, 0, 0⟩, none, none, none, none, none⟩

-- ## The throttled Traffic/Road Oracle Client revisions
--
-- src/unnamed/part_004 and the traffic screen in src/unnamed/part_005 are
-- near-duplicate revisions of traffic.js whose background task throttles
-- the two oracle fetches.  Their stuck-detection and point-award sections
-- are identical to traffic.js; the traffic section differs as embedded
-- below.  The minimum-interval constant differs between the two revisions
-- and is passed as a parameter.

/-- Minimum interval between traffic-oracle calls in part_004 (1 minute). -/
def MIN_API_CALL_INTERVAL_MS_TRAFFIC_004 : ℤ := 1000 * 60 * 1

/-- Minimum interval between traffic-oracle calls in part_005 (30 seconds). -/
def MIN_API_CALL_INTERVAL_MS_TRAFFIC_005 : ℤ := 1000 * 30

def trafficDataUnavailableStatus : String := "Traffic data unavailable"

/-- The AsyncStorage keys touched by the throttled traffic block: the
lastTrafficApiCallTime throttle timestamp (parseInt(getItem || '0')) and the
backgroundTrafficStatus cache.  A field is none when the key is absent. -/
structure TrafficThrottleState where
  lastTrafficApiCallTime : Option ℤ
  backgroundTrafficStatus : Option String
deriving DecidableEq, Repr

/-- Classification of the distance-matrix payload in the throttled
revisions (part_004 lines 242-254, part_005 lines 234-247): identical ratio
logic to traffic.js, but a completed response without the nested payload is
classified with the explicit unavailable status instead of keeping the
initial Unknown. -/
def classifyTrafficThrottled (element : Option TrafficElement) : String :=
  match element with
  | none => trafficDataUnavailableStatus
  | some e =>
      let ratio : Option ℚ :=
        match e.normalDuration with
        | some n =>
            if n > 0 then
              match e.durationInTraffic with
              | some d => some (d / n)
              | none => none
            else some 1
        | none => some 1
      match ratio with
      | some r =>
          if r > HEAVY_TRAFFIC_THRESHOLD then heavyStatus
          else if r > MODERATE_TRAFFIC_THRESHOLD then moderateStatus
          else freeFlowStatus
      | none => freeFlowStatus

/-- The throttled traffic block of the background task in
src/unnamed/part_004 (lines 216-262) and part_005 (lines 216-258) - the
operation the spec calls refreshTraffic - together with the unconditional
setItem of backgroundTrafficStatus that follows it (part_004 line 301,
part_005 line 292).

canCallTrafficApi compares now minus the stored lastTrafficApiCallTime
(0 when absent) against the minimum interval.  When it holds, the fetch and
its JSON parsing run inside one try: any throw there - a network failure or
a parse failure of the completed response - lands in the catch, which sets
the status to Error and skips the setItem of lastTrafficApiCallTime, leaving
the throttle timestamp unchanged; a call that completes and parses runs that
setItem after the classification, whatever the classification is.  When the
throttle has not elapsed, no request is issued and the cached
backgroundTrafficStatus (Unknown when absent) is returned.  Returns the new
state, the resulting trafficStatus, and the number of external requests
issued. -/
def refreshTraffic (minIntervalMs now : ℤ) (st : TrafficThrottleState)
    (call : TrafficApiResult) : TrafficThrottleState × String × ℕ :=
  let lastTrafficApiCallTime : ℤ := st.lastTrafficApiCallTime.getD 0
  let canCallTrafficApi : Bool :=
    decide (now - lastTrafficApiCallTime ≥ minIntervalMs)
  if canCallTrafficApi then
    match call with
    | .ok element =>
        let trafficStatus := classifyTrafficThrottled element
        (⟨some now, some trafficStatus⟩, trafficStatus, 1)
    | .fail =>
        (⟨st.lastTrafficApiCallTime, some errorStatus⟩, errorStatus, 1)
  else
    let trafficStatus := st.backgroundTrafficStatus.getD unknownStatus
    (⟨st.lastTrafficApiCallTime, some trafficStatus⟩, trafficStatus, 0)


-- ## Helper lemmas

lemma ensure_writes_no_grant (r : RemoteStore) :
    ∀ w ∈ (ensureUserPointsFieldM r).2, w.isGrant = false := by
  intro w hw
  unfold ensureUserPointsFieldM at hw
  rcases r with ⟨_ | d⟩
  · simp at hw
    simp [hw, RemoteWrite.isGrant]
  · by_cases h : d.points = none
    · simp [h] at hw
      simp [hw, RemoteWrite.isGrant]
    · simp [h] at hw

lemma ensure_doc_some (r : RemoteStore) :
    ∃ d, (ensureUserPointsFieldM r).1.userDoc = some d := by
  unfold ensureUserPointsFieldM
  rcases r with ⟨_ | d⟩
  · exact ⟨_, rfl⟩
  · by_cases h : d.points = none <;> simp [h]

lemma pointStep_of_not_stuck (env : TaskEnv) (now : ℤ) (s : SessionState)
    (r : RemoteStore) (ws : List RemoteWrite) (calls : ℕ) (st : String)
    (road : Bool) (stuck : Bool) (h : stuck = false) :
    pointStep env now s r ws calls st road stuck = ⟨s, r, ws, calls⟩ := by
  simp [pointStep, h]

lemma pointStep_of_not_road (env : TaskEnv) (now : ℤ) (s : SessionState)
    (r : RemoteStore) (ws : List RemoteWrite) (calls : ℕ) (st : String)
    (road : Bool) (stuck : Bool) (h : road = false) :
    pointStep env now s r ws calls st road stuck = ⟨s, r, ws, calls⟩ := by
  simp [pointStep, h]

lemma pointStep_of_not_ready (env : TaskEnv) (now : ℤ) (s : SessionState)
    (r : RemoteStore) (ws : List RemoteWrite) (calls : ℕ) (st : String)
    (road : Bool) (stuck : Bool)
    (h : now - s.lastPointTime.getD 0 < COOLDOWN_INTERVAL_MS) :
    pointStep env now s r ws calls st road stuck = ⟨s, r, ws, calls⟩ := by
  simp [pointStep, decide_eq_false (not_le.mpr h)]

lemma pointStep_of_no_zone (env : TaskEnv) (now : ℤ) (s : SessionState)
    (r : RemoteStore) (ws : List RemoteWrite) (calls : ℕ) (st : String)
    (road : Bool) (stuck : Bool) (h1 : st ≠ heavyStatus) (h2 : st ≠ moderateStatus) :
    pointStep env now s r ws calls st road stuck = ⟨s, r, ws, calls⟩ := by
  simp [pointStep, decide_eq_false h1, decide_eq_false h2]

lemma pointStep_of_remote_fail (env : TaskEnv) (now : ℤ) (s : SessionState)
    (r : RemoteStore) (ws : List RemoteWrite) (calls : ℕ) (st : String)
    (road : Bool) (stuck : Bool) (h : env.grantRemoteOk = false) :
    pointStep env now s r ws calls st road stuck = ⟨s, r, ws, calls⟩ := by
  simp [pointStep, h]

lemma pointStep_of_no_doc (env : TaskEnv) (now : ℤ) (s : SessionState)
    (r : RemoteStore) (ws : List RemoteWrite) (calls : ℕ) (st : String)
    (road : Bool) (stuck : Bool) (h : r.userDoc = none) :
    pointStep env now s r ws calls st road stuck = ⟨s, r, ws, calls⟩ := by
  simp [pointStep, h]

lemma pointStep_grant_heavy (env : TaskEnv) (now : ℤ) (s : SessionState)
    (r : RemoteStore) (ws : List RemoteWrite) (calls : ℕ) (st : String)
    (road : Bool) (stuck : Bool) (d : UserDoc)
    (hst : stuck = true) (hrd : road = true)
    (hcd : COOLDOWN_INTERVAL_MS ≤ now - s.lastPointTime.getD 0)
    (hok : env.grantRemoteOk = true) (hdoc : r.userDoc = some d)
    (hz : st = heavyStatus) :
    pointStep env now s r ws calls st road stuck =
      ⟨{ s with lastPointTime := some now },
       ⟨some ⟨some (d.points.getD 0 + 10),
              arrayUnionAppend d.pointHistory ⟨env.nowLocaleString, heavyReason⟩,
              some now⟩⟩,
       ws ++ [RemoteWrite.grantUpdate (d.points.getD 0 + 10)
                ⟨env.nowLocaleString, heavyReason⟩ now],
       calls⟩ := by
  simp [pointStep, hst, hrd, hok, hdoc, hz, decide_eq_true hcd, heavyReason, heavyStatus]

lemma pointStep_grant_moderate (env : TaskEnv) (now : ℤ) (s : SessionState)
    (r : RemoteStore) (ws : List RemoteWrite) (calls : ℕ) (st : String)
    (road : Bool) (stuck : Bool) (d : UserDoc)
    (hst : stuck = true) (hrd : road = true)
    (hcd : COOLDOWN_INTERVAL_MS ≤ now - s.lastPointTime.getD 0)
    (hok : env.grantRemoteOk = true) (hdoc : r.userDoc = some d)
    (hz : st = moderateStatus) :
    pointStep env now s r ws calls st road stuck =
      ⟨{ s with lastPointTime := some now },
       ⟨some ⟨some (d.points.getD 0 + 5),
              arrayUnionAppend d.pointHistory ⟨env.nowLocaleString, moderateReason⟩,
              some now⟩⟩,
       ws ++ [RemoteWrite.grantUpdate (d.points.getD 0 + 5)
                ⟨env.nowLocaleString, moderateReason⟩ now],
       calls⟩ := by
  have hne : st ≠ heavyStatus := by rw [hz]; decide
  simp [pointStep, hst, hrd, hok, hdoc, hz, decide_eq_true hcd,
    decide_eq_false hne, moderateReason, moderateStatus, heavyStatus]

lemma pointStep_session_cases (env : TaskEnv) (now : ℤ) (s : SessionState)
    (r : RemoteStore) (ws : List RemoteWrite) (calls : ℕ) (st : String)
    (road : Bool) (stuck : Bool) :
    (pointStep env now s r ws calls st road stuck).session = s ∨
    (pointStep env now s r ws calls st road stuck).session =
      { s with lastPointTime := some now } := by
  simp only [pointStep]
  repeat' split
  all_goals first
  | exact Or.inl rfl
  | exact Or.inr rfl

lemma pointStep_session_frame (env : TaskEnv) (now : ℤ) (s : SessionState)
    (r : RemoteStore) (ws : List RemoteWrite) (calls : ℕ) (st : String)
    (road : Bool) (stuck : Bool) :
    (pointStep env now s r ws calls st road stuck).session.lastKnownLocation
        = s.lastKnownLocation ∧
    (pointStep env now s r ws calls st road stuck).session.backgroundTrafficStatus
        = s.backgroundTrafficStatus ∧
    (pointStep env now s r ws calls st road stuck).session.backgroundIsStuck
        = s.backgroundIsStuck := by
  rcases pointStep_session_cases env now s r ws calls st road stuck with h | h <;>
    rw [h] <;> exact ⟨rfl, rfl, rfl⟩

lemma pointStep_calls (env : TaskEnv) (now : ℤ) (s : SessionState)
    (r : RemoteStore) (ws : List RemoteWrite) (calls : ℕ) (st : String)
    (road : Bool) (stuck : Bool) :
    (pointStep env now s r ws calls st road stuck).httpCalls = calls := by
  simp only [pointStep]
  repeat' split
  all_goals rfl

/-- Characterization of an award write in the point section: whenever a
grant-form write is produced (on top of a write prefix containing no award
writes), all four eligibility conditions held, the remote write succeeded,
the session cooldown key was set to now, and the write is exactly the heavy
or the moderate read-modify-write update. -/
lemma pointStep_grant_char (env : TaskEnv) (now : ℤ) (s : SessionState)
    (r : RemoteStore) (ws : List RemoteWrite) (calls : ℕ) (st : String)
    (road : Bool) (stuck : Bool) (w : RemoteWrite)
    (hws : ∀ w' ∈ ws, w'.isGrant = false)
    (hw : w ∈ (pointStep env now s r ws calls st road stuck).writes)
    (hg : w.isGrant = true) :
    stuck = true ∧ road = true ∧
    COOLDOWN_INTERVAL_MS ≤ now - s.lastPointTime.getD 0 ∧
    env.grantRemoteOk = true ∧
    (pointStep env now s r ws calls st road stuck).session.lastPointTime = some now ∧
    ((st = heavyStatus ∧
        w = RemoteWrite.grantUpdate (docPoints r + 10)
              ⟨env.nowLocaleString, heavyReason⟩ now) ∨
     (st = moderateStatus ∧
        w = RemoteWrite.grantUpdate (docPoints r + 5)
              ⟨env.nowLocaleString, moderateReason⟩ now)) := by
  by_cases hst : stuck = true
  case neg =>
    rw [pointStep_of_not_stuck env now s r ws calls st road stuck
      (by simpa using hst)] at hw
    exact absurd (hws w hw) (by simp [hg])
  by_cases hrd : road = true
  case neg =>
    rw [pointStep_of_not_road env now s r ws calls st road stuck
      (by simpa using hrd)] at hw
    exact absurd (hws w hw) (by simp [hg])
  by_cases hcd : COOLDOWN_INTERVAL_MS ≤ now - s.lastPointTime.getD 0
  case neg =>
    rw [pointStep_of_not_ready env now s r ws calls st road stuck (not_le.mp hcd)] at hw
    exact absurd (hws w hw) (by simp [hg])
  by_cases hok : env.grantRemoteOk = true
  case neg =>
    rw [pointStep_of_remote_fail env now s r ws calls st road stuck
      (by simpa using hok)] at hw
    exact absurd (hws w hw) (by simp [hg])
  by_cases hz : st = heavyStatus ∨ st = moderateStatus
  case neg =>
    push_neg at hz
    rw [pointStep_of_no_zone env now s r ws calls st road stuck hz.1 hz.2] at hw
    exact absurd (hws w hw) (by simp [hg])
  rcases hdoc : r.userDoc with _ | d
  · rw [pointStep_of_no_doc env now s r ws calls st road stuck hdoc] at hw
    exact absurd (hws w hw) (by simp [hg])
  rcases hz with hz | hz
  · rw [pointStep_grant_heavy env now s r ws calls st road stuck d
      hst hrd hcd hok hdoc hz] at hw ⊢
    refine ⟨hst, hrd, hcd, hok, rfl, Or.inl ⟨hz, ?_⟩⟩
    rcases List.mem_append.mp hw with hmem | hmem
    · exact absurd (hws w hmem) (by simp [hg])
    · simpa [docPoints, hdoc] using List.mem_singleton.mp hmem
  · rw [pointStep_grant_moderate env now s r ws calls st road stuck d
      hst hrd hcd hok hdoc hz] at hw ⊢
    refine ⟨hst, hrd, hcd, hok, rfl, Or.inr ⟨hz, ?_⟩⟩
    rcases List.mem_append.mp hw with hmem | hmem
    · exact absurd (hws w hmem) (by simp [hg])
    · simpa [docPoints, hdoc] using List.mem_singleton.mp hmem

/-- Unfolding of a non-degenerate invocation to the point section applied to
the cache-updated session and the ensured store. -/
lemma runTask_eq (dist : ℚ → ℚ → ℚ → ℚ → ℚ) (latest : LocationFix) (env : TaskEnv)
    (now : ℤ) (u : String) (s : SessionState) (r : RemoteStore) :
    runTask dist ⟨false, some latest, some u, now⟩ env s r =
      pointStep env now
        (cacheWrites s (stuckStep dist s.lastKnownLocation latest now).1
          (oracleStep dist env latest).status (oracleStep dist env latest).onRoad
          (stuckStep dist s.lastKnownLocation latest now).2
          (oracleStep dist env latest).snapped)
        (ensureUserPointsFieldM r).1 (ensureUserPointsFieldM r).2
        (oracleStep dist env latest).calls (oracleStep dist env latest).status
        (oracleStep dist env latest).onRoad
        (stuckStep dist s.lastKnownLocation latest now).2 := rfl

/-- Characterization of an award write over a whole invocation: it requires a
fix, a signed-in user, stuck and on-road verdicts, a ready cooldown measured
against the session lastPointTime key, a successful remote write, and it is
the heavy or moderate read-modify-write on top of the points read back after
ensureUserPointsField; the session cooldown key is then set to now. -/
lemma runTask_grant_char (dist : ℚ → ℚ → ℚ → ℚ → ℚ) (inp : TaskInput)
    (env : TaskEnv) (s : SessionState) (r : RemoteStore) (w : RemoteWrite)
    (hw : w ∈ (runTask dist inp env s r).writes) (hg : w.isGrant = true) :
    ∃ latest u, inp.error = false ∧ inp.data = some latest ∧ inp.user = some u ∧
      (stuckStep dist s.lastKnownLocation latest inp.now).2 = true ∧
      (oracleStep dist env latest).onRoad = true ∧
      COOLDOWN_INTERVAL_MS ≤ inp.now - s.lastPointTime.getD 0 ∧
      env.grantRemoteOk = true ∧
      (runTask dist inp env s r).session.lastPointTime = some inp.now ∧
      (((oracleStep dist env latest).status = heavyStatus ∧
          w = RemoteWrite.grantUpdate (pointsAfterEnsure r + 10)
                ⟨env.nowLocaleString, heavyReason⟩ inp.now) ∨
       ((oracleStep dist env latest).status = moderateStatus ∧
          w = RemoteWrite.grantUpdate (pointsAfterEnsure r + 5)
                ⟨env.nowLocaleString, moderateReason⟩ inp.now)) := by
  obtain ⟨err, data, user, now⟩ := inp
  cases err
  case true => simp [runTask] at hw
  case false =>
  cases data
  case none => simp [runTask] at hw
  case some latest =>
  cases user
  case none => simp [runTask] at hw
  case some u =>
  rw [runTask_eq dist latest env now u s r] at hw
  have hchar := pointStep_grant_char env now
    (cacheWrites s (stuckStep dist s.lastKnownLocation latest now).1
      (oracleStep dist env latest).status (oracleStep dist env latest).onRoad
      (stuckStep dist s.lastKnownLocation latest now).2
      (oracleStep dist env latest).snapped)
    (ensureUserPointsFieldM r).1 (ensureUserPointsFieldM r).2
    (oracleStep dist env latest).calls (oracleStep dist env latest).status
    (oracleStep dist env latest).onRoad
    (stuckStep dist s.lastKnownLocation latest now).2 w
    (ensure_writes_no_grant r) hw hg
  obtain ⟨h1, h2, h3, h4, h5, h6⟩ := hchar
  refine ⟨latest, u, rfl, rfl, rfl, h1, h2, h3, h4, ?_, ?_⟩
  · rw [runTask_eq dist latest env now u s r]
    exact h5
  · exact h6

/-- No award write can be produced while the cooldown measured against the
session lastPointTime key has not elapsed. -/
lemma runTask_no_grant_of_not_ready (dist : ℚ → ℚ → ℚ → ℚ → ℚ) (inp : TaskInput)
    (env : TaskEnv) (s : SessionState) (r : RemoteStore)
    (h : inp.now - s.lastPointTime.getD 0 < COOLDOWN_INTERVAL_MS) :
    ∀ w ∈ (runTask dist inp env s r).writes, w.isGrant = false := by
  intro w hw
  by_contra hg
  obtain ⟨_, _, _, _, _, _, _, hcd, _⟩ :=
    runTask_grant_char dist inp env s r w hw (by simpa using hg)
  exact absurd hcd (not_le.mpr h)

/-- When the award block's remote write fails, the session lastPointTime key
is left unchanged and no award write is recorded. -/
lemma runTask_remote_fail_frame (dist : ℚ → ℚ → ℚ → ℚ → ℚ) (inp : TaskInput)
    (env : TaskEnv) (s : SessionState) (r : RemoteStore)
    (h : env.grantRemoteOk = false) :
    (runTask dist inp env s r).session.lastPointTime = s.lastPointTime ∧
    ∀ w ∈ (runTask dist inp env s r).writes, w.isGrant = false := by
  constructor
  · obtain ⟨err, data, user, now⟩ := inp
    cases err
    case true => rfl
    case false =>
    cases data
    case none => rfl
    case some latest =>
    cases user
    case none => rfl
    case some u =>
    rw [runTask_eq dist latest env now u s r,
      pointStep_of_remote_fail _ _ _ _ _ _ _ _ _ h]
    rfl
  · intro w hw
    by_contra hg
    obtain ⟨_, _, _, _, _, _, _, _, hok, _⟩ :=
      runTask_grant_char dist inp env s r w hw (by simpa using hg)
    exact absurd hok (by simp [h])

/-- A fully eligible heavy invocation with a working store performs exactly
the heavy award. -/
lemma runTask_grant_eq_heavy (dist : ℚ → ℚ → ℚ → ℚ → ℚ) (latest : LocationFix)
    (env : TaskEnv) (now : ℤ) (u : String) (s : SessionState) (r : RemoteStore)
    (d : UserDoc)
    (hstuck : (stuckStep dist s.lastKnownLocation latest now).2 = true)
    (hroad : (oracleStep dist env latest).onRoad = true)
    (hz : (oracleStep dist env latest).status = heavyStatus)
    (hcd : COOLDOWN_INTERVAL_MS ≤ now - s.lastPointTime.getD 0)
    (hok : env.grantRemoteOk = true)
    (hdoc : (ensureUserPointsFieldM r).1.userDoc = some d) :
    runTask dist ⟨false, some latest, some u, now⟩ env s r =
      ⟨{ cacheWrites s (stuckStep dist s.lastKnownLocation latest now).1
            (oracleStep dist env latest).status (oracleStep dist env latest).onRoad
            (stuckStep dist s.lastKnownLocation latest now).2
            (oracleStep dist env latest).snapped with lastPointTime := some now },
       ⟨some ⟨some (d.points.getD 0 + 10),
              arrayUnionAppend d.pointHistory ⟨env.nowLocaleString, heavyReason⟩,
              some now⟩⟩,
       (ensureUserPointsFieldM r).2 ++
         [RemoteWrite.grantUpdate (d.points.getD 0 + 10)
            ⟨env.nowLocaleString, heavyReason⟩ now],
       (oracleStep dist env latest).calls⟩ := by
  rw [runTask_eq dist latest env now u s r,
    pointStep_grant_heavy env now
      (cacheWrites s (stuckStep dist s.lastKnownLocation latest now).1
        (oracleStep dist env latest).status (oracleStep dist env latest).onRoad
        (stuckStep dist s.lastKnownLocation latest now).2
        (oracleStep dist env latest).snapped)
      (ensureUserPointsFieldM r).1 (ensureUserPointsFieldM r).2
      (oracleStep dist env latest).calls (oracleStep dist env latest).status
      (oracleStep dist env latest).onRoad
      (stuckStep dist s.lastKnownLocation latest now).2 d
      hstuck hroad hcd hok hdoc hz]

/-- A fully eligible moderate invocation with a working store performs
exactly the moderate award. -/
lemma runTask_grant_eq_moderate (dist : ℚ → ℚ → ℚ → ℚ → ℚ) (latest : LocationFix)
    (env : TaskEnv) (now : ℤ) (u : String) (s : SessionState) (r : RemoteStore)
    (d : UserDoc)
    (hstuck : (stuckStep dist s.lastKnownLocation latest now).2 = true)
    (hroad : (oracleStep dist env latest).onRoad = true)
    (hz : (oracleStep dist env latest).status = moderateStatus)
    (hcd : COOLDOWN_INTERVAL_MS ≤ now - s.lastPointTime.getD 0)
    (hok : env.grantRemoteOk = true)
    (hdoc : (ensureUserPointsFieldM r).1.userDoc = some d) :
    runTask dist ⟨false, some latest, some u, now⟩ env s r =
      ⟨{ cacheWrites s (stuckStep dist s.lastKnownLocation latest now).1
            (oracleStep dist env latest).status (oracleStep dist env latest).onRoad
            (stuckStep dist s.lastKnownLocation latest now).2
            (oracleStep dist env latest).snapped with lastPointTime := some now },
       ⟨some ⟨some (d.points.getD 0 + 5),
              arrayUnionAppend d.pointHistory ⟨env.nowLocaleString, moderateReason⟩,
              some now⟩⟩,
       (ensureUserPointsFieldM r).2 ++
         [RemoteWrite.grantUpdate (d.points.getD 0 + 5)
            ⟨env.nowLocaleString, moderateReason⟩ now],
       (oracleStep dist env latest).calls⟩ := by
  rw [runTask_eq dist latest env now u s r,
    pointStep_grant_moderate env now
      (cacheWrites s (stuckStep dist s.lastKnownLocation latest now).1
        (oracleStep dist env latest).status (oracleStep dist env latest).onRoad
        (stuckStep dist s.lastKnownLocation latest now).2
        (oracleStep dist env latest).snapped)
      (ensureUserPointsFieldM r).1 (ensureUserPointsFieldM r).2
      (oracleStep dist env latest).calls (oracleStep dist env latest).status
      (oracleStep dist env latest).onRoad
      (stuckStep dist s.lastKnownLocation latest now).2 d
      hstuck hroad hcd hok hdoc hz]

/-- Below the distance threshold the reference is kept and the verdict is
exactly the elapsed-time test. -/
lemma stuckStep_near (dist : ℚ → ℚ → ℚ → ℚ → ℚ) (ref : RefPoint)
    (latest : LocationFix) (now : ℤ)
    (h : dist ref.latitude ref.longitude latest.latitude latest.longitude <
      STUCK_DISTANCE_THRESHOLD_METERS) :
    stuckStep dist (some ref) latest now =
      (some ref, decide (now - ref.timestamp ≥ STUCK_TIME_THRESHOLD_MS)) := by
  by_cases he : now - ref.timestamp ≥ STUCK_TIME_THRESHOLD_MS
  · simp [stuckStep, h, he]
  · simp [stuckStep, he, not_le.mpr h]

/-- At or above the distance threshold the reference is replaced by the
current sample stamped with now, and the verdict is MOVING. -/
lemma stuckStep_far (dist : ℚ → ℚ → ℚ → ℚ → ℚ) (ref : RefPoint)
    (latest : LocationFix) (now : ℤ)
    (h : STUCK_DISTANCE_THRESHOLD_METERS ≤
      dist ref.latitude ref.longitude latest.latitude latest.longitude) :
    stuckStep dist (some ref) latest now =
      (some ⟨latest.latitude, latest.longitude, now⟩, false) := by
  simp [stuckStep, h, not_lt.mpr h]

/-- Every invocation reaching the oracle section issues at least one
external HTTP request. -/
lemma oracleStep_calls_pos (dist : ℚ → ℚ → ℚ → ℚ → ℚ) (env : TaskEnv)
    (latest : LocationFix) : 1 ≤ (oracleStep dist env latest).calls := by
  unfold oracleStep
  repeat' split
  all_goals norm_num

-- Evaluation lemmas for the concrete example inputs (the ratio arithmetic
-- is rational, so these are established with norm_num rather than decide).

lemma classify_heavy_ex : classifyTraffic (some ⟨some 2, some 1⟩) = heavyStatus := by
  simp only [classifyTraffic]
  norm_num [HEAVY_TRAFFIC_THRESHOLD]

lemma oracleStep_heavy_ex (latest : LocationFix) :
    oracleStep dist0 envHeavyEx latest = ⟨heavyStatus, true, some ⟨0, 0⟩, 2⟩ := by
  simp only [oracleStep, envHeavyEx]
  rw [classify_heavy_ex]
  norm_num [dist0, ON_ROAD_THRESHOLD_METERS]

lemma stuckStep_ex0 (now : ℤ) (hstk : STUCK_TIME_THRESHOLD_MS ≤ now) :
    stuckStep dist0 (some ⟨0, 0, 0⟩) fixEx now = (some ⟨0, 0, 0⟩, true) := by
  rw [stuckStep_near dist0 ⟨0, 0, 0⟩ fixEx now
    (by norm_num [dist0, STUCK_DISTANCE_THRESHOLD_METERS])]
  simp [hstk]

lemma stuckStep_ex (now : ℤ) (hstk : STUCK_TIME_THRESHOLD_MS ≤ now) :
    stuckStep dist0 sessEx.lastKnownLocation fixEx now = (some ⟨0, 0, 0⟩, true) :=
  stuckStep_ex0 now hstk

/-- Full evaluation of a heavy award run on the example inputs, for any
stored points value p, history and remote lastPointTime, and any invocation
instant past both thresholds. -/
lemma runTask_heavy_ex (hist : List HistoryEntry) (p : ℤ) (lpt : Option ℤ)
    (now : ℤ) (hnow : COOLDOWN_INTERVAL_MS ≤ now)
    (hstk : STUCK_TIME_THRESHOLD_MS ≤ now) :
    runTask dist0 ⟨false, some fixEx, some "u", now⟩ envHeavyEx sessEx
        ⟨some ⟨some p, hist, lpt⟩⟩ =
      ⟨⟨some ⟨0, 0, 0⟩, some heavyStatus, some true, some true, some ⟨0, 0⟩, some now⟩,
       ⟨some ⟨some (p + 10), arrayUnionAppend hist ⟨"T", heavyReason⟩, some now⟩⟩,
       [RemoteWrite.grantUpdate (p + 10) ⟨"T", heavyReason⟩ now], 2⟩ := by
  have h1 := stuckStep_ex now hstk
  have hstuck : (stuckStep dist0 sessEx.lastKnownLocation fixEx now).2 = true := by
    rw [h1]
  have hroad : (oracleStep dist0 envHeavyEx fixEx).onRoad = true := by
    rw [oracleStep_heavy_ex fixEx]
  have hz : (oracleStep dist0 envHeavyEx fixEx).status = heavyStatus := by
    rw [oracleStep_heavy_ex fixEx]
  have hcd : COOLDOWN_INTERVAL_MS ≤ now - sessEx.lastPointTime.getD 0 := by
    simpa [sessEx] using hnow
  have hdoc : (ensureUserPointsFieldM ⟨some ⟨some p, hist, lpt⟩⟩).1.userDoc
      = some ⟨some p, hist, lpt⟩ := rfl
  rw [runTask_grant_eq_heavy dist0 fixEx envHeavyEx now "u" sessEx
    ⟨some ⟨some p, hist, lpt⟩⟩ ⟨some p, hist, lpt⟩ hstuck hroad hz hcd rfl hdoc,
    h1, oracleStep_heavy_ex fixEx]
  rfl

-- ## Claims

/-- Claim C10: when no user is authenticated (auth.currentUser is null) the
background task returns without mutating any state: the session record, the
remote store, the write trace and the HTTP-call count are exactly those of a
do-nothing invocation. -/
theorem claim_C10_no_user_no_mutation (dist : ℚ → ℚ → ℚ → ℚ → ℚ)
    (inp : TaskInput) (env : TaskEnv) (s : SessionState) (r : RemoteStore)
    (h : inp.user = none) :
    runTask dist inp env s r = ⟨s, r, [], 0⟩ := by
  obtain ⟨err, data, user, now⟩ := inp
  subst h
  cases err
  case true => rfl
  case false =>
    cases data
    case none => rfl
    case some latest => rfl

/-- Witness for claim C10 at a concrete signed-out invocation. -/
theorem claim_C10_witness :
    (⟨false, some ⟨1, 2, none, 5⟩, none, 9⟩ : TaskInput).user = none ∧
    runTask (fun _ _ _ _ => 0) ⟨false, some ⟨1, 2, none, 5⟩, none, 9⟩
        ⟨TrafficApiResult.fail, RoadsApiResult.fail, true, ""⟩
        ⟨none, none, none, none, none, none⟩ ⟨none⟩
      = ⟨⟨none, none, none, none, none, none⟩, ⟨none⟩, [], 0⟩ :=
  ⟨rfl, claim_C10_no_user_no_mutation _ _ _ _ _ rfl⟩

/-- Claim C4: with an existing reference, a sample at distance at least the
threshold replaces the reference with the current sample stamped now and
yields MOVING; a sample below the threshold leaves the reference unchanged
and is STUCK exactly when the elapsed time since the reference timestamp
reaches the stationary threshold; hence after a movement reset a subsequent
nearby sample (in particular one at the very same location) is STUCK only
once a fresh full stationary interval has elapsed from the reset time. -/
theorem claim_C4_stuck_detector (dist : ℚ → ℚ → ℚ → ℚ → ℚ) (ref : RefPoint)
    (latest : LocationFix) (now : ℤ) :
    (STUCK_DISTANCE_THRESHOLD_METERS ≤
        dist ref.latitude ref.longitude latest.latitude latest.longitude →
      stuckStep dist (some ref) latest now =
        (some ⟨latest.latitude, latest.longitude, now⟩, false)) ∧
    (dist ref.latitude ref.longitude latest.latitude latest.longitude <
        STUCK_DISTANCE_THRESHOLD_METERS →
      (stuckStep dist (some ref) latest now).1 = some ref ∧
      ((stuckStep dist (some ref) latest now).2 = true ↔
        STUCK_TIME_THRESHOLD_MS ≤ now - ref.timestamp)) ∧
    (STUCK_DISTANCE_THRESHOLD_METERS ≤
        dist ref.latitude ref.longitude latest.latitude latest.longitude →
      ∀ (next : LocationFix) (now₂ : ℤ),
        dist latest.latitude latest.longitude next.latitude next.longitude <
          STUCK_DISTANCE_THRESHOLD_METERS →
        ((stuckStep dist (stuckStep dist (some ref) latest now).1 next now₂).2 = true ↔
          STUCK_TIME_THRESHOLD_MS ≤ now₂ - now)) := by
  refine ⟨fun h => stuckStep_far dist ref latest now h, fun h => ?_, fun h next now₂ h₂ => ?_⟩
  · rw [stuckStep_near dist ref latest now h]
    exact ⟨rfl, by simp⟩
  · rw [stuckStep_far dist ref latest now h,
      stuckStep_near dist ⟨latest.latitude, latest.longitude, now⟩ next now₂ h₂]
    simp

/-- Witness for claim C4: a sample 5 units away from a one-minute-old
reference (under a distance function returning 5) keeps the reference and is
judged STUCK. -/
theorem claim_C4_witness :
    ((fun _ _ _ _ => (5 : ℚ)) (0 : ℚ) (0 : ℚ) (0 : ℚ) (0 : ℚ) <
      STUCK_DISTANCE_THRESHOLD_METERS) ∧
    ((stuckStep (fun _ _ _ _ => 5) (some ⟨0, 0, 0⟩) ⟨0, 0, none, 70000⟩ 70000).1
        = some ⟨0, 0, 0⟩ ∧
      ((stuckStep (fun _ _ _ _ => 5) (some ⟨0, 0, 0⟩) ⟨0, 0, none, 70000⟩ 70000).2 = true ↔
        STUCK_TIME_THRESHOLD_MS ≤ (70000 : ℤ) - 0)) :=
  ⟨by norm_num [STUCK_DISTANCE_THRESHOLD_METERS],
   (claim_C4_stuck_detector (fun _ _ _ _ => 5) ⟨0, 0, 0⟩ ⟨0, 0, none, 70000⟩ 70000).2.1
     (by norm_num [STUCK_DISTANCE_THRESHOLD_METERS])⟩

/-- Claim C5 counterexample: the task never inspects the delivered fix's
timestamp: a stale fix (timestamp 500, older than the reference's 1000)
whose distance from the reference reaches the threshold replaces the
reference and restarts the stationary timer at now, so the claimed no-op
pass-through for every stale fix fails. -/
theorem claim_C5_counterexample :
    (⟨9, 9, none, 500⟩ : LocationFix).timestamp ≤
      (⟨0, 0, 1000⟩ : RefPoint).timestamp ∧
    (runTask (fun _ _ _ _ => 100) ⟨false, some ⟨9, 9, none, 500⟩, some "u", 2000⟩
        ⟨TrafficApiResult.ok none, RoadsApiResult.ok none, true, ""⟩
        ⟨some ⟨0, 0, 1000⟩, none, none, none, none, none⟩
        ⟨some ⟨some 0, [], none⟩⟩).session.lastKnownLocation
      = some ⟨9, 9, 2000⟩ ∧
    some (⟨9, 9, 2000⟩ : RefPoint) ≠ some (⟨0, 0, 1000⟩ : RefPoint) := by
  decide

/-- Claim C5 amended: the task handles stale or duplicate fixes through the
distance rule alone (timestamps are never consulted): any invocation whose
fix lies below the distance threshold from the stored reference (in
particular a duplicate fix at the same spot, stale or not) leaves
lastKnownLocation unchanged, so such a fix never resets the stationary
timer; a stale fix at threshold distance or more, however, does replace the
reference. -/
theorem claim_C5_amended_distance_guard (dist : ℚ → ℚ → ℚ → ℚ → ℚ)
    (inp : TaskInput) (env : TaskEnv) (s : SessionState) (r : RemoteStore)
    (ref : RefPoint) (href : s.lastKnownLocation = some ref)
    (hnear : ∀ latest, inp.data = some latest →
      dist ref.latitude ref.longitude latest.latitude latest.longitude <
        STUCK_DISTANCE_THRESHOLD_METERS) :
    (runTask dist inp env s r).session.lastKnownLocation = some ref := by
  obtain ⟨err, data, user, now⟩ := inp
  cases err
  case true => exact href
  case false =>
  cases data
  case none => exact href
  case some latest =>
  cases user
  case none => exact href
  case some u =>
  rw [runTask_eq dist latest env now u s r]
  rw [(pointStep_session_frame _ _ _ _ _ _ _ _ _).1]
  show (stuckStep dist s.lastKnownLocation latest now).1 = some ref
  rw [href, stuckStep_near dist ref latest now (hnear latest rfl)]

/-- Witness for claim C5 at a concrete duplicate fix: same coordinates as
the reference, older timestamp, distance 0. -/
theorem claim_C5_witness :
    (⟨some ⟨3, 4, 1000⟩, none, none, none, none, none⟩ :
        SessionState).lastKnownLocation = some ⟨3, 4, 1000⟩ ∧
    (runTask (fun _ _ _ _ => 0) ⟨false, some ⟨3, 4, none, 900⟩, some "u", 2000⟩
        ⟨TrafficApiResult.ok none, RoadsApiResult.ok none, true, ""⟩
        ⟨some ⟨3, 4, 1000⟩, none, none, none, none, none⟩
        ⟨some ⟨some 0, [], none⟩⟩).session.lastKnownLocation = some ⟨3, 4, 1000⟩ :=
  ⟨rfl,
   claim_C5_amended_distance_guard (fun _ _ _ _ => 0)
     ⟨false, some ⟨3, 4, none, 900⟩, some "u", 2000⟩
     ⟨TrafficApiResult.ok none, RoadsApiResult.ok none, true, ""⟩
     ⟨some ⟨3, 4, 1000⟩, none, none, none, none, none⟩
     ⟨some ⟨some 0, [], none⟩⟩ ⟨3, 4, 1000⟩ rfl
     (fun latest _ => by norm_num [STUCK_DISTANCE_THRESHOLD_METERS])⟩

/-- Claim C3: an award write (the grant update carrying the points total,
the history append and the lastPointTime advance) is produced only when the
stuck verdict, the on-road flag and the cooldown test all hold and the
classification is heavy or moderate; in particular with the cooldown not
elapsed, or off road, no award write occurs. -/
theorem claim_C3_award_conditions (dist : ℚ → ℚ → ℚ → ℚ → ℚ) (inp : TaskInput)
    (env : TaskEnv) (s : SessionState) (r : RemoteStore) (latest : LocationFix)
    (hdata : inp.data = some latest) (w : RemoteWrite)
    (hw : w ∈ (runTask dist inp env s r).writes) (hg : w.isGrant = true) :
    (stuckStep dist s.lastKnownLocation latest inp.now).2 = true ∧
    (oracleStep dist env latest).onRoad = true ∧
    COOLDOWN_INTERVAL_MS ≤ inp.now - s.lastPointTime.getD 0 ∧
    ((oracleStep dist env latest).status = heavyStatus ∨
     (oracleStep dist env latest).status = moderateStatus) := by
  obtain ⟨latest', u, _, hdata', _, h1, h2, h3, _, _, hform⟩ :=
    runTask_grant_char dist inp env s r w hw hg
  have hlat : latest' = latest := by
    rw [hdata] at hdata'
    exact (Option.some_inj.mp hdata').symm
  subst hlat
  exact ⟨h1, h2, h3, hform.imp (fun h => h.1) (fun h => h.1)⟩

/-- Witness for claim C3 at a concrete eligible heavy invocation. -/
theorem claim_C3_witness :
    ((⟨false, some fixEx, some "u", 300000⟩ : TaskInput).data = some fixEx ∧
      RemoteWrite.grantUpdate 10 ⟨"T", heavyReason⟩ 300000 ∈
        (runTask dist0 ⟨false, some fixEx, some "u", 300000⟩ envHeavyEx sessEx
          ⟨some ⟨some 0, [], none⟩⟩).writes) ∧
    ((stuckStep dist0 sessEx.lastKnownLocation fixEx 300000).2 = true ∧
     (oracleStep dist0 envHeavyEx fixEx).onRoad = true ∧
     COOLDOWN_INTERVAL_MS ≤ (300000 : ℤ) - sessEx.lastPointTime.getD 0 ∧
     ((oracleStep dist0 envHeavyEx fixEx).status = heavyStatus ∨
      (oracleStep dist0 envHeavyEx fixEx).status = moderateStatus)) :=
  ⟨⟨rfl, by
      rw [runTask_heavy_ex [] 0 none 300000 (by norm_num [COOLDOWN_INTERVAL_MS])
        (by norm_num [STUCK_TIME_THRESHOLD_MS])]
      simp⟩,
   claim_C3_award_conditions dist0 ⟨false, some fixEx, some "u", 300000⟩
     envHeavyEx sessEx ⟨some ⟨some 0, [], none⟩⟩ fixEx rfl
     (RemoteWrite.grantUpdate 10 ⟨"T", heavyReason⟩ 300000)
     (by
       rw [runTask_heavy_ex [] 0 none 300000 (by norm_num [COOLDOWN_INTERVAL_MS])
         (by norm_num [STUCK_TIME_THRESHOLD_MS])]
       simp) rfl⟩

/-- Claim C1 counterexample: with the remote document's lastPointTime equal
to 299999 — within the cooldown window of now = 300000 — but no session
lastPointTime key, the task still grants: the guard is evaluated against the
locally persisted value, not against a re-fetched remote lastPointTime, so
the remote value is not authoritative. -/
theorem claim_C1_counterexample :
    (runTask dist0 ⟨false, some fixEx, some "u", 300000⟩ envHeavyEx sessEx
        ⟨some ⟨some 0, [], some 299999⟩⟩).writes.any RemoteWrite.isGrant = true ∧
    Option.elim (⟨some ⟨some 0, [], some 299999⟩⟩ : RemoteStore).userDoc 0
        (fun d => d.lastPointTime.getD 0) = 299999 ∧
    (300000 : ℤ) - 299999 < COOLDOWN_INTERVAL_MS := by
  refine ⟨?_, by decide, by decide⟩
  rw [runTask_heavy_ex [] 0 (some 299999) 300000 (by norm_num [COOLDOWN_INTERVAL_MS])
    (by norm_num [STUCK_TIME_THRESHOLD_MS])]
  rfl

/-- Claim C1 amended: the cooldown guard is evaluated against the locally
persisted session lastPointTime key read at the start of the point section;
the remote lastPointTime is written on a grant but never read.  Under
sequential invocations this still yields at most one grant per cooldown
window on a device: a successful grant stamps the session key with now, so a
second invocation inside the window produces no award write. -/
theorem claim_C1_amended_local_cooldown (dist₁ dist₂ : ℚ → ℚ → ℚ → ℚ → ℚ)
    (inp₁ inp₂ : TaskInput) (env₁ env₂ : TaskEnv) (s : SessionState)
    (r : RemoteStore) (w₁ : RemoteWrite)
    (hw₁ : w₁ ∈ (runTask dist₁ inp₁ env₁ s r).writes) (hg₁ : w₁.isGrant = true)
    (hwin : inp₂.now - inp₁.now < COOLDOWN_INTERVAL_MS) :
    COOLDOWN_INTERVAL_MS ≤ inp₁.now - s.lastPointTime.getD 0 ∧
    ∀ w ∈ (runTask dist₂ inp₂ env₂ (runTask dist₁ inp₁ env₁ s r).session
        (runTask dist₁ inp₁ env₁ s r).remote).writes, w.isGrant = false := by
  obtain ⟨_, _, _, _, _, _, _, hcd, _, hsess, _⟩ :=
    runTask_grant_char dist₁ inp₁ env₁ s r w₁ hw₁ hg₁
  refine ⟨hcd, ?_⟩
  apply runTask_no_grant_of_not_ready
  rw [hsess]
  simpa using hwin

/-- Witness for claim C1: a concrete grant at now = 300000 followed by an
invocation at now = 310000, inside the five-minute window. -/
theorem claim_C1_witness :
    (RemoteWrite.grantUpdate 10 ⟨"T", heavyReason⟩ 300000 ∈
        (runTask dist0 ⟨false, some fixEx, some "u", 300000⟩ envHeavyEx sessEx
          ⟨some ⟨some 0, [], none⟩⟩).writes ∧
      (310000 : ℤ) - 300000 < COOLDOWN_INTERVAL_MS) ∧
    (COOLDOWN_INTERVAL_MS ≤ (300000 : ℤ) - sessEx.lastPointTime.getD 0 ∧
      ∀ w ∈ (runTask dist0 ⟨false, some fixEx, some "u", 310000⟩ envHeavyEx
          (runTask dist0 ⟨false, some fixEx, some "u", 300000⟩ envHeavyEx sessEx
            ⟨some ⟨some 0, [], none⟩⟩).session
          (runTask dist0 ⟨false, some fixEx, some "u", 300000⟩ envHeavyEx sessEx
            ⟨some ⟨some 0, [], none⟩⟩).remote).writes, w.isGrant = false) :=
  ⟨⟨by
      rw [runTask_heavy_ex [] 0 none 300000 (by norm_num [COOLDOWN_INTERVAL_MS])
        (by norm_num [STUCK_TIME_THRESHOLD_MS])]
      simp,
    by decide⟩,
   claim_C1_amended_local_cooldown dist0 dist0
     ⟨false, some fixEx, some "u", 300000⟩ ⟨false, some fixEx, some "u", 310000⟩
     envHeavyEx envHeavyEx sessEx ⟨some ⟨some 0, [], none⟩⟩
     (RemoteWrite.grantUpdate 10 ⟨"T", heavyReason⟩ 300000)
     (by
       rw [runTask_heavy_ex [] 0 none 300000 (by norm_num [COOLDOWN_INTERVAL_MS])
         (by norm_num [STUCK_TIME_THRESHOLD_MS])]
       simp) rfl (by decide)⟩

/-- Claim C2 counterexample: an award run whose only points mutation is a
plain field update carrying the locally computed total 7 + 10 = 17 (getDoc
then updateDoc), not an atomic increment. -/
theorem claim_C2_counterexample :
    (runTask dist0 ⟨false, some fixEx, some "u", 300000⟩ envHeavyEx sessEx
        ⟨some ⟨some 7, [], none⟩⟩).writes
      = [RemoteWrite.grantUpdate 17 ⟨"T", heavyReason⟩ 300000] ∧
    (RemoteWrite.grantUpdate 17 ⟨"T", heavyReason⟩ 300000).isPlainTotalWrite = true ∧
    (RemoteWrite.grantUpdate 17 ⟨"T", heavyReason⟩ 300000).isAtomicIncrement = false := by
  refine ⟨?_, rfl, rfl⟩
  rw [runTask_heavy_ex [] 7 none 300000 (by norm_num [COOLDOWN_INTERVAL_MS])
    (by norm_num [STUCK_TIME_THRESHOLD_MS])]
  norm_num

/-- Claim C2 amended: the task never issues the store's atomic increment;
every award write sets points to a locally computed total, namely the points
value read back after ensureUserPointsField plus the award amount (10 or 5),
while the history entry rides along via the atomic array-union append. -/
theorem claim_C2_amended_read_modify_write (dist : ℚ → ℚ → ℚ → ℚ → ℚ)
    (inp : TaskInput) (env : TaskEnv) (s : SessionState) (r : RemoteStore) :
    (∀ w ∈ (runTask dist inp env s r).writes, w.isAtomicIncrement = false) ∧
    (∀ n e t, RemoteWrite.grantUpdate n e t ∈ (runTask dist inp env s r).writes →
      n = pointsAfterEnsure r + 10 ∨ n = pointsAfterEnsure r + 5) := by
  constructor
  · intro w hw
    rcases w with _ | _ | ⟨n, e, t⟩ | ⟨d, e, t⟩
    · rfl
    · rfl
    · rfl
    · obtain ⟨_, _, _, _, _, _, _, _, _, _, hform⟩ :=
        runTask_grant_char dist inp env s r _ hw rfl
      rcases hform with ⟨_, heq⟩ | ⟨_, heq⟩ <;> exact absurd heq (by simp)
  · intro n e t hmem
    obtain ⟨_, _, _, _, _, _, _, _, _, _, hform⟩ :=
      runTask_grant_char dist inp env s r _ hmem rfl
    rcases hform with ⟨_, heq⟩ | ⟨_, heq⟩
    · cases heq
      exact Or.inl rfl
    · cases heq
      exact Or.inr rfl

/-- Witness for claim C2 at the concrete award run: the written total 17 is
the read-back 7 plus the heavy award 10. -/
theorem claim_C2_witness :
    (RemoteWrite.grantUpdate 17 ⟨"T", heavyReason⟩ 300000 ∈
      (runTask dist0 ⟨false, some fixEx, some "u", 300000⟩ envHeavyEx sessEx
        ⟨some ⟨some 7, [], none⟩⟩).writes) ∧
    ((17 : ℤ) = pointsAfterEnsure ⟨some ⟨some 7, [], none⟩⟩ + 10 ∨
     (17 : ℤ) = pointsAfterEnsure ⟨some ⟨some 7, [], none⟩⟩ + 5) :=
  ⟨by
     rw [runTask_heavy_ex [] 7 none 300000 (by norm_num [COOLDOWN_INTERVAL_MS])
       (by norm_num [STUCK_TIME_THRESHOLD_MS])]
     norm_num,
   (claim_C2_amended_read_modify_write dist0 ⟨false, some fixEx, some "u", 300000⟩
     envHeavyEx sessEx ⟨some ⟨some 7, [], none⟩⟩).2 17 ⟨"T", heavyReason⟩ 300000
     (by
       rw [runTask_heavy_ex [] 7 none 300000 (by norm_num [COOLDOWN_INTERVAL_MS])
         (by norm_num [STUCK_TIME_THRESHOLD_MS])]
       norm_num)⟩

/-- Claim C6 counterexample: a concrete heavy grant appends the history
entry actually written by the source — a formatted time string and the
reason string with the Background suffix, and no amount field — whose reason
differs from the claimed literal. -/
theorem claim_C6_counterexample :
    (runTask dist0 ⟨false, some fixEx, some "u", 300000⟩ envHeavyEx sessEx
        ⟨some ⟨some 0, [], none⟩⟩).writes
      = [RemoteWrite.grantUpdate 10 ⟨"T", heavyReason⟩ 300000] ∧
    heavyReason ≠ "stuck in heavy traffic on road" := by
  refine ⟨?_, by decide⟩
  rw [runTask_heavy_ex [] 0 none 300000 (by norm_num [COOLDOWN_INTERVAL_MS])
    (by norm_num [STUCK_TIME_THRESHOLD_MS])]
  norm_num

/-- Claim C6 amended: when all eligibility conditions hold and the store
write succeeds, a HEAVY grant adds exactly 10 points (a MODERATE grant 5),
the appended history entry carries the formatted current-time string and the
reason string of the source (with its Background suffix) but no amount
field, the remote lastPointTime is set to now, and now is mirrored into the
session lastPointTime key. -/
theorem claim_C6_amended_grant_effects (dist : ℚ → ℚ → ℚ → ℚ → ℚ)
    (latest : LocationFix) (env : TaskEnv) (now : ℤ) (u : String)
    (s : SessionState) (r : RemoteStore) (d : UserDoc)
    (hstuck : (stuckStep dist s.lastKnownLocation latest now).2 = true)
    (hroad : (oracleStep dist env latest).onRoad = true)
    (hcd : COOLDOWN_INTERVAL_MS ≤ now - s.lastPointTime.getD 0)
    (hok : env.grantRemoteOk = true)
    (hdoc : (ensureUserPointsFieldM r).1.userDoc = some d) :
    ((oracleStep dist env latest).status = heavyStatus →
      (runTask dist ⟨false, some latest, some u, now⟩ env s r).remote.userDoc =
          some ⟨some (d.points.getD 0 + 10),
                arrayUnionAppend d.pointHistory ⟨env.nowLocaleString, heavyReason⟩,
                some now⟩ ∧
      (runTask dist ⟨false, some latest, some u, now⟩ env s r).session.lastPointTime
          = some now ∧
      (runTask dist ⟨false, some latest, some u, now⟩ env s r).writes =
        (ensureUserPointsFieldM r).2 ++
          [RemoteWrite.grantUpdate (d.points.getD 0 + 10)
            ⟨env.nowLocaleString, heavyReason⟩ now]) ∧
    ((oracleStep dist env latest).status = moderateStatus →
      (runTask dist ⟨false, some latest, some u, now⟩ env s r).remote.userDoc =
          some ⟨some (d.points.getD 0 + 5),
                arrayUnionAppend d.pointHistory ⟨env.nowLocaleString, moderateReason⟩,
                some now⟩ ∧
      (runTask dist ⟨false, some latest, some u, now⟩ env s r).session.lastPointTime
          = some now ∧
      (runTask dist ⟨false, some latest, some u, now⟩ env s r).writes =
        (ensureUserPointsFieldM r).2 ++
          [RemoteWrite.grantUpdate (d.points.getD 0 + 5)
            ⟨env.nowLocaleString, moderateReason⟩ now]) := by
  constructor
  · intro hz
    rw [runTask_grant_eq_heavy dist latest env now u s r d hstuck hroad hz hcd hok hdoc]
    exact ⟨rfl, rfl, rfl⟩
  · intro hz
    rw [runTask_grant_eq_moderate dist latest env now u s r d hstuck hroad hz hcd hok hdoc]
    exact ⟨rfl, rfl, rfl⟩

/-- Witness for claim C6 at the concrete heavy grant. -/
theorem claim_C6_witness :
    ((stuckStep dist0 sessEx.lastKnownLocation fixEx 300000).2 = true ∧
     (oracleStep dist0 envHeavyEx fixEx).status = heavyStatus) ∧
    ((runTask dist0 ⟨false, some fixEx, some "u", 300000⟩ envHeavyEx sessEx
        ⟨some ⟨some 0, [], none⟩⟩).remote.userDoc =
        some ⟨some 10, [⟨"T", heavyReason⟩], some 300000⟩ ∧
     (runTask dist0 ⟨false, some fixEx, some "u", 300000⟩ envHeavyEx sessEx
        ⟨some ⟨some 0, [], none⟩⟩).session.lastPointTime = some 300000 ∧
     (runTask dist0 ⟨false, some fixEx, some "u", 300000⟩ envHeavyEx sessEx
        ⟨some ⟨some 0, [], none⟩⟩).writes =
       [RemoteWrite.grantUpdate 10 ⟨"T", heavyReason⟩ 300000]) :=
  ⟨⟨by rw [stuckStep_ex 300000 (by norm_num [STUCK_TIME_THRESHOLD_MS])],
    by rw [oracleStep_heavy_ex fixEx]⟩,
   (claim_C6_amended_grant_effects dist0 fixEx envHeavyEx 300000 "u" sessEx
      ⟨some ⟨some 0, [], none⟩⟩ ⟨some 0, [], none⟩
      (by rw [stuckStep_ex 300000 (by norm_num [STUCK_TIME_THRESHOLD_MS])])
      (by rw [oracleStep_heavy_ex fixEx])
      (by norm_num [sessEx, COOLDOWN_INTERVAL_MS])
      rfl rfl).1
     (by rw [oracleStep_heavy_ex fixEx])⟩

/-- Claim C7: within one throttle window the throttled traffic block
(part_004/part_005) issues exactly one external HTTP request across a pair
of evaluations: the first evaluation past the interval issues the single
request, and a second evaluation inside the window issues none and returns
the identical cached classification; in general, whenever the throttle has
not elapsed the cached severity is returned unchanged with the throttle
timestamp untouched. -/
theorem claim_C7_throttle_single_call (minIntervalMs : ℤ)
    (st₀ : TrafficThrottleState) (now₁ now₂ : ℤ)
    (call₁ call₂ : TrafficApiResult)
    (h1 : minIntervalMs ≤ now₁ - st₀.lastTrafficApiCallTime.getD 0)
    (h2 : now₂ - (refreshTraffic minIntervalMs now₁ st₀
        call₁).1.lastTrafficApiCallTime.getD 0 < minIntervalMs) :
    ((refreshTraffic minIntervalMs now₁ st₀ call₁).2.2 +
      (refreshTraffic minIntervalMs now₂
        (refreshTraffic minIntervalMs now₁ st₀ call₁).1 call₂).2.2 = 1 ∧
     (refreshTraffic minIntervalMs now₂
        (refreshTraffic minIntervalMs now₁ st₀ call₁).1 call₂).2.1 =
       (refreshTraffic minIntervalMs now₁ st₀ call₁).2.1) ∧
    ∀ (st : TrafficThrottleState) (now : ℤ) (c : TrafficApiResult),
      now - st.lastTrafficApiCallTime.getD 0 < minIntervalMs →
      refreshTraffic minIntervalMs now st c =
        (⟨st.lastTrafficApiCallTime,
          some (st.backgroundTrafficStatus.getD unknownStatus)⟩,
         st.backgroundTrafficStatus.getD unknownStatus, 0) := by
  have hthr : ∀ (st : TrafficThrottleState) (now : ℤ) (c : TrafficApiResult),
      now - st.lastTrafficApiCallTime.getD 0 < minIntervalMs →
      refreshTraffic minIntervalMs now st c =
        (⟨st.lastTrafficApiCallTime,
          some (st.backgroundTrafficStatus.getD unknownStatus)⟩,
         st.backgroundTrafficStatus.getD unknownStatus, 0) := by
    intro st now c h
    simp [refreshTraffic, decide_eq_false (not_le.mpr h)]
  refine ⟨?_, hthr⟩
  rcases call₁ with _ | element
  · have e1 : refreshTraffic minIntervalMs now₁ st₀ TrafficApiResult.fail =
        (⟨st₀.lastTrafficApiCallTime, some errorStatus⟩, errorStatus, 1) := by
      simp [refreshTraffic, decide_eq_true h1]
    rw [e1] at h2 ⊢
    rw [hthr _ _ _ h2]
    exact ⟨rfl, rfl⟩
  · have e1 : refreshTraffic minIntervalMs now₁ st₀ (TrafficApiResult.ok element) =
        (⟨some now₁, some (classifyTrafficThrottled element)⟩,
         classifyTrafficThrottled element, 1) := by
      simp [refreshTraffic, decide_eq_true h1]
    rw [e1] at h2 ⊢
    rw [hthr _ _ _ h2]
    exact ⟨rfl, rfl⟩

/-- Witness for claim C7: an evaluation at 60000 ms against an absent
timestamp opens the window with one request; a second evaluation at 70000 ms
is throttled and returns the cached classification. -/
theorem claim_C7_witness :
    (MIN_API_CALL_INTERVAL_MS_TRAFFIC_004 ≤ (60000 : ℤ) -
        (⟨none, none⟩ : TrafficThrottleState).lastTrafficApiCallTime.getD 0 ∧
      (70000 : ℤ) - (refreshTraffic MIN_API_CALL_INTERVAL_MS_TRAFFIC_004 60000
          ⟨none, none⟩ (TrafficApiResult.ok none)).1.lastTrafficApiCallTime.getD 0
        < MIN_API_CALL_INTERVAL_MS_TRAFFIC_004) ∧
    (((refreshTraffic MIN_API_CALL_INTERVAL_MS_TRAFFIC_004 60000 ⟨none, none⟩
          (TrafficApiResult.ok none)).2.2 +
        (refreshTraffic MIN_API_CALL_INTERVAL_MS_TRAFFIC_004 70000
          (refreshTraffic MIN_API_CALL_INTERVAL_MS_TRAFFIC_004 60000 ⟨none, none⟩
            (TrafficApiResult.ok none)).1 (TrafficApiResult.ok none)).2.2 = 1 ∧
      (refreshTraffic MIN_API_CALL_INTERVAL_MS_TRAFFIC_004 70000
          (refreshTraffic MIN_API_CALL_INTERVAL_MS_TRAFFIC_004 60000 ⟨none, none⟩
            (TrafficApiResult.ok none)).1 (TrafficApiResult.ok none)).2.1 =
        (refreshTraffic MIN_API_CALL_INTERVAL_MS_TRAFFIC_004 60000 ⟨none, none⟩
          (TrafficApiResult.ok none)).2.1) ∧
     ∀ (st : TrafficThrottleState) (now : ℤ) (c : TrafficApiResult),
       now - st.lastTrafficApiCallTime.getD 0 < MIN_API_CALL_INTERVAL_MS_TRAFFIC_004 →
       refreshTraffic MIN_API_CALL_INTERVAL_MS_TRAFFIC_004 now st c =
         (⟨st.lastTrafficApiCallTime,
           some (st.backgroundTrafficStatus.getD unknownStatus)⟩,
          st.backgroundTrafficStatus.getD unknownStatus, 0)) :=
  ⟨⟨by decide, by decide⟩,
   claim_C7_throttle_single_call MIN_API_CALL_INTERVAL_MS_TRAFFIC_004 ⟨none, none⟩
     60000 70000 (TrafficApiResult.ok none) (TrafficApiResult.ok none)
     (by decide) (by decide)⟩

/-- Claim C8: in the throttled traffic block, an evaluation past the
throttle whose try block throws - in particular one whose request fails to
reach the network - classifies Error and leaves the lastTrafficApiCallTime
throttle timestamp unchanged, so the retry is not artificially delayed;
every call that completes and parses updates the throttle timestamp to now
regardless of the resulting classification. -/
theorem claim_C8_failure_timestamps (minIntervalMs now : ℤ)
    (st : TrafficThrottleState)
    (h : minIntervalMs ≤ now - st.lastTrafficApiCallTime.getD 0) :
    ((refreshTraffic minIntervalMs now st TrafficApiResult.fail).2.1 =
        errorStatus ∧
     (refreshTraffic minIntervalMs now st
        TrafficApiResult.fail).1.lastTrafficApiCallTime =
       st.lastTrafficApiCallTime) ∧
    ∀ element, (refreshTraffic minIntervalMs now st
        (TrafficApiResult.ok element)).1.lastTrafficApiCallTime = some now := by
  refine ⟨⟨?_, ?_⟩, fun element => ?_⟩ <;>
    simp [refreshTraffic, decide_eq_true h]

/-- Witness for claim C8 at a concrete elapsed throttle. -/
theorem claim_C8_witness :
    MIN_API_CALL_INTERVAL_MS_TRAFFIC_005 ≤ (30000 : ℤ) -
        (⟨none, some unknownStatus⟩ :
          TrafficThrottleState).lastTrafficApiCallTime.getD 0 ∧
    (((refreshTraffic MIN_API_CALL_INTERVAL_MS_TRAFFIC_005 30000
          ⟨none, some unknownStatus⟩ TrafficApiResult.fail).2.1 = errorStatus ∧
      (refreshTraffic MIN_API_CALL_INTERVAL_MS_TRAFFIC_005 30000
          ⟨none, some unknownStatus⟩
          TrafficApiResult.fail).1.lastTrafficApiCallTime =
        (⟨none, some unknownStatus⟩ :
          TrafficThrottleState).lastTrafficApiCallTime) ∧
     ∀ element, (refreshTraffic MIN_API_CALL_INTERVAL_MS_TRAFFIC_005 30000
        ⟨none, some unknownStatus⟩
        (TrafficApiResult.ok element)).1.lastTrafficApiCallTime = some 30000) :=
  ⟨by decide,
   claim_C8_failure_timestamps MIN_API_CALL_INTERVAL_MS_TRAFFIC_005 30000
     ⟨none, some unknownStatus⟩ (by decide)⟩

/-- Claim C9: when the award block's remote write fails, the session
lastPointTime key is not advanced and no award write lands, so a later
invocation in which the eligibility conditions still hold (measured against
the unchanged cooldown anchor) performs the grant. -/
theorem claim_C9_retry_after_failure (dist₁ : ℚ → ℚ → ℚ → ℚ → ℚ)
    (inp₁ : TaskInput) (env₁ : TaskEnv) (s : SessionState) (r : RemoteStore)
    (hfail : env₁.grantRemoteOk = false) :
    (runTask dist₁ inp₁ env₁ s r).session.lastPointTime = s.lastPointTime ∧
    (∀ w ∈ (runTask dist₁ inp₁ env₁ s r).writes, w.isGrant = false) ∧
    ∀ (dist₂ : ℚ → ℚ → ℚ → ℚ → ℚ) (latest₂ : LocationFix) (env₂ : TaskEnv)
      (now₂ : ℤ) (u₂ : String),
      (stuckStep dist₂ (runTask dist₁ inp₁ env₁ s r).session.lastKnownLocation
          latest₂ now₂).2 = true →
      (oracleStep dist₂ env₂ latest₂).onRoad = true →
      (oracleStep dist₂ env₂ latest₂).status = heavyStatus →
      COOLDOWN_INTERVAL_MS ≤ now₂ - s.lastPointTime.getD 0 →
      env₂.grantRemoteOk = true →
      ∃ w ∈ (runTask dist₂ ⟨false, some latest₂, some u₂, now₂⟩ env₂
          (runTask dist₁ inp₁ env₁ s r).session
          (runTask dist₁ inp₁ env₁ s r).remote).writes, w.isGrant = true := by
  obtain ⟨hsess, hnog⟩ := runTask_remote_fail_frame dist₁ inp₁ env₁ s r hfail
  refine ⟨hsess, hnog, ?_⟩
  intro dist₂ latest₂ env₂ now₂ u₂ hstuck hroad hz hcd hok
  obtain ⟨d, hd⟩ := ensure_doc_some (runTask dist₁ inp₁ env₁ s r).remote
  have hcd' : COOLDOWN_INTERVAL_MS ≤ now₂ -
      (runTask dist₁ inp₁ env₁ s r).session.lastPointTime.getD 0 := by
    rw [hsess]
    exact hcd
  rw [runTask_grant_eq_heavy dist₂ latest₂ env₂ now₂ u₂
    (runTask dist₁ inp₁ env₁ s r).session (runTask dist₁ inp₁ env₁ s r).remote d
    hstuck hroad hz hcd' hok hd]
  exact ⟨_, List.mem_append_right _ (List.mem_singleton_self _), rfl⟩

/-- Witness for claim C9: a failing grant attempt at 300000 followed by a
successful retry under the same conditions. -/
theorem claim_C9_witness :
    (⟨TrafficApiResult.ok (some ⟨some 2, some 1⟩),
      RoadsApiResult.ok (some ⟨0, 0⟩), false, "T"⟩ : TaskEnv).grantRemoteOk
      = false ∧
    ∃ w ∈ (runTask dist0 ⟨false, some fixEx, some "u", 300000⟩ envHeavyEx
        (runTask dist0 ⟨false, some fixEx, some "u", 300000⟩
          ⟨TrafficApiResult.ok (some ⟨some 2, some 1⟩),
           RoadsApiResult.ok (some ⟨0, 0⟩), false, "T"⟩ sessEx
          ⟨some ⟨some 0, [], none⟩⟩).session
        (runTask dist0 ⟨false, some fixEx, some "u", 300000⟩
          ⟨TrafficApiResult.ok (some ⟨some 2, some 1⟩),
           RoadsApiResult.ok (some ⟨0, 0⟩), false, "T"⟩ sessEx
          ⟨some ⟨some 0, [], none⟩⟩).remote).writes, w.isGrant = true :=
  ⟨rfl,
   (claim_C9_retry_after_failure dist0 ⟨false, some fixEx, some "u", 300000⟩
      ⟨TrafficApiResult.ok (some ⟨some 2, some 1⟩),
       RoadsApiResult.ok (some ⟨0, 0⟩), false, "T"⟩ sessEx
      ⟨some ⟨some 0, [], none⟩⟩ rfl).2.2 dist0 fixEx envHeavyEx 300000 "u"
     (by
       rw [runTask_eq dist0 fixEx
         ⟨TrafficApiResult.ok (some ⟨some 2, some 1⟩),
          RoadsApiResult.ok (some ⟨0, 0⟩), false, "T"⟩ 300000 "u" sessEx
         ⟨some ⟨some 0, [], none⟩⟩,
         pointStep_of_remote_fail _ _ _ _ _ _ _ _ _ rfl]
       show (stuckStep dist0 (stuckStep dist0 sessEx.lastKnownLocation fixEx
         300000).1 fixEx 300000).2 = true
       rw [stuckStep_ex 300000 (by norm_num [STUCK_TIME_THRESHOLD_MS])]
       show (stuckStep dist0 sessEx.lastKnownLocation fixEx 300000).2 = true
       rw [stuckStep_ex 300000 (by norm_num [STUCK_TIME_THRESHOLD_MS])])
     (by rw [oracleStep_heavy_ex fixEx])
     (by rw [oracleStep_heavy_ex fixEx])
     (by norm_num [sessEx, COOLDOWN_INTERVAL_MS])
     rfl⟩

end TrafficRewards
